import Mathlib

/-
A shallow embedding of the visitor-pattern dispatch library in visitor.h:
the closed-hierarchy visitor core (Visitor<T...> with Visitable<S>), the
open-hierarchy acyclic visitor core (AcyclicVisitor<T...> with
AcyclicVisitable<S>), and the two generic operations built on top of them
(Cloner / clone and Streamer / print).  Dispatch functions are instrumented:
besides the functor state they return the list of dispatch-entry-point
invocations that took place, so that theorems can speak about which entry
point was invoked, how often, and with which object identity.
-/

namespace VisitorLib

/-- A record of one invocation of a dispatch entry point: which variant
tag the entry point belongs to, whether it was the const flavour
(visit(const S&) of the const visitor type), and the identity (address)
of the object reference passed to it. -/
structure Call (Tag : Type) where
  tag : Tag
  isConst : Bool
  addr : Nat
  deriving DecidableEq

/-- An object of a polymorphic hierarchy carrying a visitable capability.
`staticTag` is the variant type S fixed at the point the capability was
attached (Visitable<S> resp. AcyclicVisitable<S>), `dynTag` models the
dynamic type reported by typeid(*this), `val` is the object viewed as S
(the view produced by static_cast<S&>(*this)), and `addr` models the
identity of the object (its address). -/
structure Obj (Tag : Type) (Val : Tag → Type) where
  staticTag : Tag
  dynTag : Tag
  val : Val staticTag
  addr : Nat

variable {Tag : Type} {Val : Tag → Type} {σ : Type} {F : Type}

/-- Model of a closed-hierarchy visitor capability set Visitor<T...>,
specialised to a functor-backed implementation Visitor<T...>::Impl<F>:
`tags` is the declared compile-time list T..., and `visit t` is the entry
point visit(Ti&), which forwards the typed reference to the stored
functor; the functor mutates only its own state of type σ.  The same
structure also stands for the const flavour Visitor<const T...>, whose
entry points take const references and therefore cannot mutate the
visited object (no visit function of the model mutates the object; all
effects are confined to σ). -/
structure Visitor (Tag : Type) (Val : Tag → Type) (σ : Type) where
  tags : List Tag
  visit : (t : Tag) → Val t → σ → σ

/-- Outcome of a closed-hierarchy accept: either normal completion with
the resulting functor state and the list of entry-point invocations, or
the runtime type-identity assertion fired (a contract violation, which in
release builds would be undefined behaviour). -/
inductive AcceptOutcome (Tag : Type) (σ : Type) where
  | ok (s : σ) (calls : List (Call Tag))
  | assertViolation
  deriving DecidableEq

/-- Visitor<T...>::Visitable<S>::accept(Visitor&), visitor.h lines 49-54:
first assert( typeid(*this) == typeid(S) ), then invoke the entry point
Visitor<S>::visit with *this upcast to S.  In C++ the cast
static_cast<Visitor<S>&>(v) compiles only when S is among the declared
tags of the visitor set; theorems carry that membership as a
hypothesis. -/
def accept [DecidableEq Tag] (self : Obj Tag Val) (v : Visitor Tag Val σ)
    (s : σ) : AcceptOutcome Tag σ :=
  if self.dynTag = self.staticTag then
    AcceptOutcome.ok (v.visit self.staticTag self.val s)
      [⟨self.staticTag, false, self.addr⟩]
  else
    AcceptOutcome.assertViolation

/-- Visitor<T...>::Visitable<S>::accept(ConstVisitor&) const, visitor.h
lines 56-61: assert( typeid(*this) == typeid(const S) ) — typeid strips
cv-qualification, so the asserted condition is again that the dynamic
type equals S — then invoke Visitor<const S>::visit with *this upcast to
const S. -/
def acceptConst [DecidableEq Tag] (self : Obj Tag Val)
    (v : Visitor Tag Val σ) (s : σ) : AcceptOutcome Tag σ :=
  if self.dynTag = self.staticTag then
    AcceptOutcome.ok (v.visit self.staticTag self.val s)
      [⟨self.staticTag, true, self.addr⟩]
  else
    AcceptOutcome.assertViolation

/-- Model of an open-hierarchy (acyclic) visitor instance as seen through
AcyclicVisitorInterface.  `mutTags` is the set of tags S for which the
dynamic type of the visitor object derives AcyclicVisitor<S>, i.e. for
which dynamic_cast<AcyclicVisitor<S>*> succeeds; `constTags` likewise
for AcyclicVisitor<const S>.  The two capability sets are unrelated
types, so they are recorded independently.  visitMut and visitConst are
the respective entry points, forwarding to functor state of type σ. -/
structure AcyclicVisitorObj (Tag : Type) (Val : Tag → Type) (σ : Type) where
  mutTags : List Tag
  constTags : List Tag
  visitMut : (t : Tag) → Val t → σ → σ
  visitConst : (t : Tag) → Val t → σ → σ

/-- AcyclicVisitable<S>::tryAccept, visitor.h lines 141-150:
dynamic_cast the visitor base reference to AcyclicVisitor<S>*; if the
cast succeeds, invoke its visit entry point with *this cast to S and
return true, otherwise return false and do nothing else.  Returns the
flag, the functor state, and the invocations made. -/
def tryAccept [DecidableEq Tag] (self : Obj Tag Val)
    (v : AcyclicVisitorObj Tag Val σ) (s : σ) :
    Bool × σ × List (Call Tag) :=
  if self.staticTag ∈ v.mutTags then
    (true, v.visitMut self.staticTag self.val s,
      [⟨self.staticTag, false, self.addr⟩])
  else
    (false, s, [])

/-- AcyclicVisitable<S>::tryAcceptConst, visitor.h lines 152-161: the
same probe against AcyclicVisitor<const S>, invoking the const entry
point with *this cast to const S. -/
def tryAcceptConst [DecidableEq Tag] (self : Obj Tag Val)
    (v : AcyclicVisitorObj Tag Val σ) (s : σ) :
    Bool × σ × List (Call Tag) :=
  if self.staticTag ∈ v.constTags then
    (true, v.visitConst self.staticTag self.val s,
      [⟨self.staticTag, true, self.addr⟩])
  else
    (false, s, [])

/-- The state of Cloner<Base>, visitor.h lines 169-177: the result slot
`copy` (a std::unique_ptr<Base>) which is empty until a dispatch
succeeds. -/
structure ClonerState (Tag : Type) (Val : Tag → Type) where
  copy : Option (Obj Tag Val)

/-- Cloner<Base>::operator()(const T& t), visitor.h lines 172-174:
copy = std::unique_ptr<Base>( new T(t) ) — allocate a fresh object of
the resolved concrete type T, copy-constructed from t (so its dynamic
type is T and its value equals the value of t), at the fresh address
`alloc` supplied by the allocator, and store sole ownership of it in the
result slot. -/
def clonerStep (alloc : Nat) (t : Tag) (x : Val t)
    (_s : ClonerState Tag Val) : ClonerState Tag Val :=
  { copy := some { staticTag := t, dynTag := t, val := x, addr := alloc } }

/-- The visitor V::ConstVisitor::Impl<Cloner<Base>&> constructed inside
the closed-hierarchy clone, visitor.h line 183: one const entry point
per tag of V, each forwarding to the cloner functor. -/
def clonerVisitor (tags : List Tag) (alloc : Nat) :
    Visitor Tag Val (ClonerState Tag Val) :=
  { tags := tags, visit := clonerStep alloc }

/-- clone<V, Base>(const typename V::VisitableInterface&), visitor.h
lines 179-186: construct a Cloner with an empty result slot, wrap it in
a const visitor implementation over the tags of V, run accept on the
client, and hand back the result slot. -/
def cloneClosed [DecidableEq Tag] (tags : List Tag) (alloc : Nat)
    (client : Obj Tag Val) :
    AcceptOutcome Tag (Option (Obj Tag Val)) :=
  match acceptConst client (clonerVisitor tags alloc) { copy := none } with
  | AcceptOutcome.ok s calls => AcceptOutcome.ok s.copy calls
  | AcceptOutcome.assertViolation => AcceptOutcome.assertViolation

/-- The same cloning visitor viewed through the acyclic interface: the
implementation object derives AcyclicVisitor<const Ti> for every tag Ti
of V and no non-const AcyclicVisitor<Ti>, so its mutable capability set
is empty.  The mutable entry point is never reachable through the probe
(the model keeps the functor state unchanged there). -/
def clonerAcyclicVisitor (tags : List Tag) (alloc : Nat) :
    AcyclicVisitorObj Tag Val (ClonerState Tag Val) :=
  { mutTags := [], constTags := tags,
    visitMut := fun _ _ s => s, visitConst := clonerStep alloc }

/-- clone<V, Base>(const AcyclicVisitableInterface&), visitor.h lines
188-195: construct a Cloner with an empty result slot, wrap it in the
acyclic const visitor implementation over the tags of V, probe the
client with tryAcceptConst (discarding the flag), and hand back the
result slot.  Returns the slot, the probe flag and the invocations. -/
def cloneAcyclic [DecidableEq Tag] (tags : List Tag) (alloc : Nat)
    (client : Obj Tag Val) :
    Option (Obj Tag Val) × Bool × List (Call Tag) :=
  let r := tryAcceptConst client (clonerAcyclicVisitor tags alloc)
    { copy := none }
  (r.2.1.copy, r.1, r.2.2)

/-- Streamer<OutputStream>::operator()(const T& t), visitor.h lines
202-212: os << t, appending the textual form of the value to the sink.
The sink is modelled as the list of chunks written so far; strOf gives
the textual form that each variant type supplies for the generic
stream-insertion operation. -/
def streamerStep (strOf : (t : Tag) → Val t → String) (t : Tag)
    (x : Val t) (os : List String) : List String :=
  os ++ [strOf t x]

/-- The visitor V::ConstVisitor::makeImpl( Streamer<OutputStream>(os) )
constructed inside the closed-hierarchy print, visitor.h line 217. -/
def streamVisitor (tags : List Tag)
    (strOf : (t : Tag) → Val t → String) :
    Visitor Tag Val (List String) :=
  { tags := tags, visit := streamerStep strOf }

/-- print<V>(os, const typename V::VisitableInterface&), visitor.h lines
214-220: wrap a Streamer over the sink in a const visitor implementation
over the tags of V, run accept on the client, and return the sink. -/
def printClosed [DecidableEq Tag] (tags : List Tag)
    (strOf : (t : Tag) → Val t → String) (client : Obj Tag Val)
    (os : List String) : AcceptOutcome Tag (List String) :=
  acceptConst client (streamVisitor tags strOf) os

/-- The streaming visitor viewed through the acyclic interface: const
entry points for the tags of V only, no mutable capability. -/
def streamAcyclicVisitor (tags : List Tag)
    (strOf : (t : Tag) → Val t → String) :
    AcyclicVisitorObj Tag Val (List String) :=
  { mutTags := [], constTags := tags,
    visitMut := fun _ _ s => s, visitConst := streamerStep strOf }

/-- print<V>(os, const AcyclicVisitableInterface&), visitor.h lines
222-228: wrap a Streamer over the sink in the acyclic const visitor
implementation over the tags of V, probe the client with tryAcceptConst
(discarding the flag), and return the sink. -/
def printAcyclic [DecidableEq Tag] (tags : List Tag)
    (strOf : (t : Tag) → Val t → String) (client : Obj Tag Val)
    (os : List String) : List String :=
  (tryAcceptConst client (streamAcyclicVisitor tags strOf) os).2.1

/-- The constructor interface of a stored functor type F, as exercised by
the nested Impl classes: copyConst models F(const F&), which sees the
source only through a const reference and therefore returns a new
functor while leaving the source untouched; copyMut models a possibly
mutating F(F&) overload, returning the new functor together with the
source functor as it is left afterwards; moveCtor models F(F&&). -/
structure FunctorCtors (F : Type) where
  copyConst : F → F
  copyMut : F → F × F
  moveCtor : F → F

/-- Impl( const Impl & ) = default, visitor.h lines 26 and 103: the
member-wise copy from a const source; the stored functor is
copy-constructed via F(const F&) from a const view of the source
functor.  Result: the functor of the new Impl paired with the source
functor afterwards (unchanged, since it was only read through a const
reference).  This models both Visitor<T...>::Impl<F> and
AcyclicVisitor<T...>::Impl<F>, whose constructor sets are textually
identical. -/
def implCopyFromConstLValue (c : FunctorCtors F) (f : F) : F × F :=
  (c.copyConst f, f)

/-- Impl( Impl & other ) : Impl( const_cast<const Impl&>(other) ),
visitor.h lines 24 and 101: copy construction from a non-const lvalue
delegates to the const copy path, so the possibly mutating F(F&)
overload of the functor is never used. -/
def implCopyFromMutLValue (c : FunctorCtors F) (f : F) : F × F :=
  implCopyFromConstLValue c f

/-- Impl( const Impl && other ) : Impl( static_cast<const Impl&>(other) ),
visitor.h lines 27 and 104: copy construction from a const rvalue also
delegates to the const copy path. -/
def implCopyFromConstRValue (c : FunctorCtors F) (f : F) : F × F :=
  implCopyFromConstLValue c f

/-- Impl( Impl && ) = default, visitor.h lines 25 and 102: the default
member-wise move, moving the stored functor via F(F&&). -/
def implMoveFromRValue (c : FunctorCtors F) (f : F) : F :=
  c.moveCtor f

/-- A tiny concrete universe of variant types, used to instantiate the
generic theorems on concrete inputs: two shape variants, each carrying a
Nat value. -/
inductive ShapeTag where
  | circle
  | square
  deriving DecidableEq

/-- Each shape variant carries a single Nat measurement. -/
abbrev ShapeVal : ShapeTag → Type := fun _ => Nat

/-- A Circle object: visitable capability attached at Circle, dynamic
type Circle, radius 2, address 7. -/
def circleObj : Obj ShapeTag ShapeVal :=
  { staticTag := ShapeTag.circle, dynTag := ShapeTag.circle,
    val := 2, addr := 7 }

/-- A Square object: visitable capability attached at Square, dynamic
type Square, side 3, address 9. -/
def squareObj : Obj ShapeTag ShapeVal :=
  { staticTag := ShapeTag.square, dynTag := ShapeTag.square,
    val := 3, addr := 9 }

/-- A closed-hierarchy visitor over both shape tags whose functor sums
the visited measurements into its Nat state. -/
def sumVisitor : Visitor ShapeTag ShapeVal Nat :=
  { tags := [ShapeTag.circle, ShapeTag.square],
    visit := fun _ x s => s + x }

/-- An acyclic visitor instance implementing both the mutable and the
const entry point for Circle and nothing else. -/
def bothAcyclic : AcyclicVisitorObj ShapeTag ShapeVal Nat :=
  { mutTags := [ShapeTag.circle], constTags := [ShapeTag.circle],
    visitMut := fun _ x s => s + x, visitConst := fun _ x s => s + x }

/-- An acyclic visitor instance implementing only the const entry point
for Circle (AcyclicVisitor<const Circle>). -/
def constOnlyAcyclic : AcyclicVisitorObj ShapeTag ShapeVal Nat :=
  { mutTags := [], constTags := [ShapeTag.circle],
    visitMut := fun _ x s => s + x, visitConst := fun _ x s => s + x }

/-- An acyclic visitor instance implementing only the mutable entry
point for Circle (AcyclicVisitor<Circle>). -/
def mutOnlyAcyclic : AcyclicVisitorObj ShapeTag ShapeVal Nat :=
  { mutTags := [ShapeTag.circle], constTags := [],
    visitMut := fun _ x s => s + x, visitConst := fun _ x s => s + x }

/-- The textual form each shape variant supplies for stream
insertion. -/
def shapeStr : (t : ShapeTag) → ShapeVal t → String :=
  fun _ n => toString n

/-- C1: for every variant type S registered with a closed-hierarchy
visitor set that includes S, calling accept (and its const mirror) on a
visitable S instance — an object whose dynamic type is the S fixed when
the visitable capability was attached — invokes exactly the visit entry
point for S, exactly once, passing a reference identity-equal to the
original object (the call trace holds the single entry ⟨S, addr⟩ and the
value handed to the entry point is the object viewed as S). -/
theorem accept_dispatches_exactly_once [DecidableEq Tag]
    (self : Obj Tag Val) (v cv : Visitor Tag Val σ) (s₁ s₂ : σ)
    (hdyn : self.dynTag = self.staticTag)
    (_hmem : self.staticTag ∈ v.tags) (_hmemc : self.staticTag ∈ cv.tags) :
    accept self v s₁ =
      AcceptOutcome.ok (v.visit self.staticTag self.val s₁)
        [⟨self.staticTag, false, self.addr⟩] ∧
    acceptConst self cv s₂ =
      AcceptOutcome.ok (cv.visit self.staticTag self.val s₂)
        [⟨self.staticTag, true, self.addr⟩] := by
  constructor <;> simp [accept, acceptConst, hdyn]

/-- Witness for C1 on a concrete input: a Circle object dispatched
through the summing visitor. -/
theorem accept_dispatches_exactly_once_witness :
    (circleObj.dynTag = circleObj.staticTag ∧
      circleObj.staticTag ∈ sumVisitor.tags) ∧
    accept circleObj sumVisitor 0 =
      AcceptOutcome.ok 2 [⟨ShapeTag.circle, false, 7⟩] ∧
    acceptConst circleObj sumVisitor 10 =
      AcceptOutcome.ok 12 [⟨ShapeTag.circle, true, 7⟩] :=
  ⟨⟨rfl, by decide⟩,
    accept_dispatches_exactly_once circleObj sumVisitor sumVisitor 0 10
      rfl (by decide) (by decide)⟩

/-- C2: for every object carrying the closed-hierarchy visitable
capability for S whose dynamic type actually equals S, the runtime
type-identity assertion at the start of both the mutable and the const
accept holds: the assertion-failure branch is not taken. -/
theorem accept_assert_holds [DecidableEq Tag]
    (self : Obj Tag Val) (v cv : Visitor Tag Val σ) (s₁ s₂ : σ)
    (hdyn : self.dynTag = self.staticTag) :
    accept self v s₁ ≠ AcceptOutcome.assertViolation ∧
    acceptConst self cv s₂ ≠ AcceptOutcome.assertViolation := by
  constructor <;> simp [accept, acceptConst, hdyn]

/-- Witness for C2 on a concrete input. -/
theorem accept_assert_holds_witness :
    (circleObj.dynTag = circleObj.staticTag) ∧
    accept circleObj sumVisitor 0 ≠
      (AcceptOutcome.assertViolation : AcceptOutcome ShapeTag Nat) ∧
    acceptConst circleObj sumVisitor 0 ≠
      (AcceptOutcome.assertViolation : AcceptOutcome ShapeTag Nat) :=
  ⟨rfl, accept_assert_holds circleObj sumVisitor sumVisitor 0 0 rfl⟩

/-- C3: for every variant type S, every open-hierarchy visitor instance
v implementing the dispatch entry point for S, and — independently —
every open-hierarchy visitor instance w implementing the entry point for
const S, tryAccept on v (resp. tryAcceptConst on w) returns true and
invokes the matching visit entry point exactly once with the probed
object.  The two probes are quantified over separate visitors, so the
theorem covers visitors implementing only one of the two flavours. -/
theorem tryAccept_matching [DecidableEq Tag]
    (self : Obj Tag Val) (v w : AcyclicVisitorObj Tag Val σ) (s₁ s₂ : σ)
    (hmut : self.staticTag ∈ v.mutTags)
    (hconst : self.staticTag ∈ w.constTags) :
    tryAccept self v s₁ =
      (true, v.visitMut self.staticTag self.val s₁,
        [⟨self.staticTag, false, self.addr⟩]) ∧
    tryAcceptConst self w s₂ =
      (true, w.visitConst self.staticTag self.val s₂,
        [⟨self.staticTag, true, self.addr⟩]) := by
  constructor <;> simp [tryAccept, tryAcceptConst, hmut, hconst]

/-- Witness for C3 on concrete inputs that implement exactly one flavour
each: a Circle probed mutably by a visitor implementing only the mutable
entry point for Circle, and constly by a visitor implementing only the
const entry point for Circle. -/
theorem tryAccept_matching_witness :
    (circleObj.staticTag ∈ mutOnlyAcyclic.mutTags ∧
      circleObj.staticTag ∈ constOnlyAcyclic.constTags) ∧
    tryAccept circleObj mutOnlyAcyclic 0 =
      (true, 2, [⟨ShapeTag.circle, false, 7⟩]) ∧
    tryAcceptConst circleObj constOnlyAcyclic 5 =
      (true, 7, [⟨ShapeTag.circle, true, 7⟩]) :=
  ⟨⟨by decide, by decide⟩,
    tryAccept_matching circleObj mutOnlyAcyclic constOnlyAcyclic 0 5
      (by decide) (by decide)⟩

/-- C4: for every variant type S and every open-hierarchy visitor
instance that does not implement the entry point for S (resp. const S),
tryAccept (resp. tryAcceptConst) returns false with no observable side
effect: the functor state is returned unchanged, no entry point is
invoked (empty call trace, hence no mutation of the visited object or
the visitor and no allocation), and the false result is an ordinary
value, not an error. -/
theorem tryAccept_unmatched [DecidableEq Tag]
    (self : Obj Tag Val) (v : AcyclicVisitorObj Tag Val σ) (s₁ s₂ : σ)
    (hmut : self.staticTag ∉ v.mutTags)
    (hconst : self.staticTag ∉ v.constTags) :
    tryAccept self v s₁ = (false, s₁, []) ∧
    tryAcceptConst self v s₂ = (false, s₂, []) := by
  constructor <;> simp [tryAccept, tryAcceptConst, hmut, hconst]

/-- Witness for C4 on a concrete input: a Square probed by a visitor
that only handles Circle. -/
theorem tryAccept_unmatched_witness :
    (squareObj.staticTag ∉ bothAcyclic.mutTags ∧
      squareObj.staticTag ∉ bothAcyclic.constTags) ∧
    tryAccept squareObj bothAcyclic 0 = (false, 0, []) ∧
    tryAcceptConst squareObj bothAcyclic 5 = (false, 5, []) :=
  ⟨⟨by decide, by decide⟩,
    tryAccept_unmatched squareObj bothAcyclic 0 5 (by decide) (by decide)⟩

/-- C10: the mutable and const probe operations are fully independent:
tryAccept succeeds only against a visitor implementing the mutable entry
point for S, so it returns false against a visitor implementing only the
const entry point (even though that visitor handles const S), and
symmetrically tryAcceptConst returns false against a visitor
implementing only the mutable entry point. -/
theorem probe_mut_const_independent [DecidableEq Tag]
    (self : Obj Tag Val) (v w : AcyclicVisitorObj Tag Val σ) (s₁ s₂ : σ)
    (_hvc : self.staticTag ∈ v.constTags)
    (hvm : self.staticTag ∉ v.mutTags)
    (_hwm : self.staticTag ∈ w.mutTags)
    (hwc : self.staticTag ∉ w.constTags) :
    tryAccept self v s₁ = (false, s₁, []) ∧
    tryAcceptConst self w s₂ = (false, s₂, []) := by
  constructor <;> simp [tryAccept, tryAcceptConst, hvm, hwc]

/-- Witness for C10 on a concrete input: a Circle probed mutably by a
const-only visitor and constly by a mutable-only visitor. -/
theorem probe_mut_const_independent_witness :
    (circleObj.staticTag ∈ constOnlyAcyclic.constTags ∧
      circleObj.staticTag ∉ constOnlyAcyclic.mutTags ∧
      circleObj.staticTag ∈ mutOnlyAcyclic.mutTags ∧
      circleObj.staticTag ∉ mutOnlyAcyclic.constTags) ∧
    tryAccept circleObj constOnlyAcyclic 0 = (false, 0, []) ∧
    tryAcceptConst circleObj mutOnlyAcyclic 5 = (false, 5, []) :=
  ⟨⟨by decide, by decide, by decide, by decide⟩,
    probe_mut_const_independent circleObj constOnlyAcyclic mutOnlyAcyclic
      0 5 (by decide) (by decide) (by decide) (by decide)⟩

/-- C5: clone round-trip through the closed-hierarchy overload.  For a
variant instance on which dispatch succeeds (dynamic type equal to the
attached variant type, which is registered with V) and a fresh address
from the allocator, cloneClosed yields sole ownership of exactly one new
object whose dynamic type equals the dynamic type of the source, whose
value equals the value of the source, and whose address differs from the
address of the source (so it is a distinct object, and mutating the
clone never affects the source). -/
theorem clone_round_trip [DecidableEq Tag] (tags : List Tag) (alloc : Nat)
    (client : Obj Tag Val)
    (hdyn : client.dynTag = client.staticTag)
    (_hmem : client.staticTag ∈ tags)
    (hfresh : alloc ≠ client.addr) :
    cloneClosed tags alloc client =
      AcceptOutcome.ok
        (some { staticTag := client.staticTag, dynTag := client.staticTag,
                val := client.val, addr := alloc })
        [⟨client.staticTag, true, client.addr⟩] ∧
    client.staticTag = client.dynTag ∧ alloc ≠ client.addr := by
  refine ⟨?_, hdyn.symm, hfresh⟩
  simp [cloneClosed, acceptConst, clonerVisitor, clonerStep, hdyn]

/-- Witness for C5 on a concrete input: cloning a Circle of radius 2 at
fresh address 1 yields a new Circle of radius 2 at address 1 ≠ 7. -/
theorem clone_round_trip_witness :
    (circleObj.dynTag = circleObj.staticTag ∧
      circleObj.staticTag ∈ [ShapeTag.circle, ShapeTag.square] ∧
      (1 : Nat) ≠ circleObj.addr) ∧
    (cloneClosed [ShapeTag.circle, ShapeTag.square] 1 circleObj =
      AcceptOutcome.ok
        (some { staticTag := ShapeTag.circle, dynTag := ShapeTag.circle,
                val := 2, addr := 1 })
        [⟨ShapeTag.circle, true, 7⟩] ∧
      circleObj.staticTag = circleObj.dynTag ∧ (1 : Nat) ≠ circleObj.addr) :=
  ⟨⟨rfl, by decide, by decide⟩,
    clone_round_trip [ShapeTag.circle, ShapeTag.square] 1 circleObj
      rfl (by decide) (by decide)⟩

/-- C6: the acyclic clone overload on an instance whose variant type is
not handled by the chosen visitor-capability-set type V returns an empty
result slot (no object produced) and terminates normally: the probe
fails, no entry point is invoked, and the function returns an ordinary
value (no exception, no abort). -/
theorem cloneAcyclic_unmatched [DecidableEq Tag] (tags : List Tag)
    (alloc : Nat) (client : Obj Tag Val)
    (h : client.staticTag ∉ tags) :
    cloneAcyclic tags alloc client = (none, false, []) := by
  simp [cloneAcyclic, tryAcceptConst, clonerAcyclicVisitor, h]

/-- Witness for C6 on a concrete input: cloning a Square through a
visitor set that only covers Circle yields no object. -/
theorem cloneAcyclic_unmatched_witness :
    (squareObj.staticTag ∉ [ShapeTag.circle]) ∧
    cloneAcyclic [ShapeTag.circle] 1 squareObj = (none, false, []) :=
  ⟨by decide, cloneAcyclic_unmatched [ShapeTag.circle] 1 squareObj (by decide)⟩

/-- C7: copying a functor-backed visitor implementation object never
mutates the source.  Copy construction from a non-const lvalue, from a
const lvalue, and from a const rvalue all route to the single const-copy
path: the stored functor of the new object is copy-constructed via
F(const F&) from a const view of the source functor, and the source
functor is left exactly as it was — in particular the possibly mutating
copyMut overload is never used.  Move construction is the default
member-wise move of the stored functor. -/
theorem impl_copy_routes_to_const_path (c : FunctorCtors F) (f : F) :
    implCopyFromMutLValue c f = (c.copyConst f, f) ∧
    implCopyFromConstLValue c f = (c.copyConst f, f) ∧
    implCopyFromConstRValue c f = (c.copyConst f, f) ∧
    implMoveFromRValue c f = c.moveCtor f :=
  ⟨rfl, rfl, rfl, rfl⟩

/-- C8: the only observable effect of the acyclic print is data appended
to the given sink, and when the open-hierarchy dispatch fails (the
chosen visitor-capability-set type V does not cover the variant type of
the instance) print writes nothing, raises no error, and returns the
sink unchanged. -/
theorem printAcyclic_unmatched [DecidableEq Tag] (tags : List Tag)
    (strOf : (t : Tag) → Val t → String) (client : Obj Tag Val)
    (h : client.staticTag ∉ tags) :
    (∀ os, printAcyclic tags strOf client os = os) ∧
    (∀ c : Obj Tag Val, ∀ os, ∃ w,
      printAcyclic tags strOf c os = os ++ w) := by
  constructor
  · intro os
    simp [printAcyclic, tryAcceptConst, streamAcyclicVisitor, h]
  · intro c os
    by_cases hc : c.staticTag ∈ tags
    · exact ⟨[strOf c.staticTag c.val], by
        simp [printAcyclic, tryAcceptConst, streamAcyclicVisitor,
          streamerStep, hc]⟩
    · exact ⟨[], by
        simp [printAcyclic, tryAcceptConst, streamAcyclicVisitor, hc]⟩

/-- Witness for C8 on a concrete input: printing a Square through a
visitor set that only covers Circle leaves the sink unchanged. -/
theorem printAcyclic_unmatched_witness :
    (squareObj.staticTag ∉ [ShapeTag.circle]) ∧
    printAcyclic [ShapeTag.circle] shapeStr squareObj ["x"] = ["x"] :=
  ⟨by decide,
    (printAcyclic_unmatched [ShapeTag.circle] shapeStr squareObj
      (by decide)).1 ["x"]⟩

/-- C9: print is deterministic.  For a variant instance on which the
closed-hierarchy dispatch succeeds there is a single chunk list w,
depending only on the instance and the visitor-capability-set type, such
that printing from any starting sink appends exactly w; hence two runs
started from equal sink states — and likewise two consecutive runs —
append identical output both times. -/
theorem printClosed_deterministic [DecidableEq Tag] (tags : List Tag)
    (strOf : (t : Tag) → Val t → String) (client : Obj Tag Val)
    (hdyn : client.dynTag = client.staticTag)
    (_hmem : client.staticTag ∈ tags) :
    ∃ w, ∀ os, printClosed tags strOf client os =
      AcceptOutcome.ok (os ++ w) [⟨client.staticTag, true, client.addr⟩] :=
  ⟨[strOf client.staticTag client.val], fun os => by
    simp [printClosed, acceptConst, streamVisitor, streamerStep, hdyn]⟩

/-- Witness for C9 on a concrete input: printing a Circle of radius 2
appends the same chunk from every starting sink. -/
theorem printClosed_deterministic_witness :
    (circleObj.dynTag = circleObj.staticTag ∧
      circleObj.staticTag ∈ [ShapeTag.circle, ShapeTag.square]) ∧
    (∃ w, ∀ os, printClosed [ShapeTag.circle, ShapeTag.square] shapeStr
      circleObj os =
        AcceptOutcome.ok (os ++ w) [⟨ShapeTag.circle, true, 7⟩]) :=
  ⟨⟨rfl, by decide⟩,
    printClosed_deterministic [ShapeTag.circle, ShapeTag.square] shapeStr
      circleObj rfl (by decide)⟩

end VisitorLib
